import Mathlib

/-!
Shallow embedding of the funds_calculator payment-engine core
(`src/transaction.rs`, `src/client.rs`, `src/lib.rs`).

Modelling choices:
* Monetary amounts (`f32` in the source) are embedded as exact rationals `ℚ`;
  the claims under study are about control flow and additive bookkeeping, not
  about binary floating-point rounding.
* `tx.amount().unwrap()` panics when the amount is `None`; a panic is embedded
  as `Option.none` on the result of the operation that reaches the `unwrap`.
* The `Result<(), String>` rejection strings of `client.rs` form a closed set
  of six distinct message sites; they are embedded as the enumeration
  `Rejection` (one constructor per message site, named as in the spec's
  taxonomy).
* `HashMap<u32, Transaction>` and `HashSet<u32>` are embedded as functions
  `Nat → Option Transaction` and `Nat → Bool`; `insert`/`remove` are pointwise
  updates, matching the map/set semantics the source relies on.
* A Rust method `fn f(&mut self, ...) -> Result<(), String>` becomes a pure
  function `Client → ... → Option (Except Rejection Unit × Client)` returning
  the rejection-or-unit together with the post-state (`none` = panic).
-/

/-- The five transaction kinds of `transaction.rs` (`TransactionType`). -/
inductive TransactionType where
  | Deposit
  | Withdrawal
  | Dispute
  | Resolve
  | Chargeback
deriving DecidableEq

/-- A transaction record (`transaction.rs`, struct `Transaction`):
kind, client id (u16), transaction id (u32), optional amount. -/
structure Transaction where
  tx_type : TransactionType
  client_id : Nat
  tx_id : Nat
  amount : Option ℚ
deriving DecidableEq

/-- The six rejection message sites of `client.rs`, as a closed enumeration:
`AccountLocked` = "Account locked, ignoring {}", `NonMonotonicTx` =
"Tx {} is in the past!", `InsufficientFunds` = "Insufficient funds to withdraw {}",
`AlreadyDisputed` = "Tx {} should not have been disputed already",
`NotDisputed` = "Tx {} should have been disputed already",
`UnknownTransaction` = "Tx {} does not exist for client". -/
inductive Rejection where
  | AccountLocked
  | NonMonotonicTx
  | InsufficientFunds
  | AlreadyDisputed
  | NotDisputed
  | UnknownTransaction
deriving DecidableEq

/-- `Funds` of `client.rs`: available and held balances. -/
structure Funds where
  available : ℚ
  held : ℚ
deriving DecidableEq

/-- `Funds::new`: a Deposit seeds `available` with its amount (unwrapping the
optional amount: `none` would panic, embedded as `Option.none`); every other
kind seeds both balances with zero. -/
def Funds.new (tx : Transaction) : Option Funds :=
  match tx.tx_type with
  | .Deposit => tx.amount.map fun a => { available := a, held := 0 }
  | _ => some { available := 0, held := 0 }

/-- `Funds::calculate_total`. -/
def Funds.calculate_total (f : Funds) : ℚ :=
  f.available + f.held

/-- Pointwise update embedding `HashMap::insert`. -/
def mapInsert (m : Nat → Option Transaction) (k : Nat) (t : Transaction) :
    Nat → Option Transaction :=
  fun x => if x = k then some t else m x

/-- Pointwise update embedding `HashSet::insert`. -/
def setInsert (s : Nat → Bool) (k : Nat) : Nat → Bool :=
  fun x => if x = k then true else s x

/-- Pointwise update embedding `HashSet::remove`. -/
def setRemove (s : Nat → Bool) (k : Nat) : Nat → Bool :=
  fun x => if x = k then false else s x

/-- `Client` of `client.rs`: funds, transaction history map, disputed-tx set,
high watermark `past_tx`, lock flag. -/
structure Client where
  funds : Funds
  transactions : Nat → Option Transaction
  disputed_transactions : Nat → Bool
  past_tx : Nat
  locked : Bool

/-- `Client::new`: seed the funds from the first transaction (panic propagates
from `Funds::new`), record the seed in the history map, start with an empty
disputed set, `past_tx = tx_id`, unlocked. -/
def Client.new (tx_id : Nat) (tx : Transaction) : Option Client :=
  (Funds.new tx).map fun f =>
    { funds := f
      transactions := fun k => if k = tx_id then some tx else none
      disputed_transactions := fun _ => false
      past_tx := tx_id
      locked := false }

/-- `Client::is_locked`. -/
def Client.is_locked (c : Client) : Bool :=
  c.locked

/-- `Client::add_tx`: record the transaction and advance the high watermark. -/
def Client.add_tx (c : Client) (tx_id : Nat) (tx : Transaction) : Client :=
  { c with transactions := mapInsert c.transactions tx_id tx, past_tx := tx_id }

/-- `Client::ensure_future_tx`: accept only a strictly larger tx id. -/
def Client.ensure_future_tx (c : Client) (tx_id : Nat) : Except Rejection Unit :=
  if c.past_tx < tx_id then .ok () else .error .NonMonotonicTx

/-- `Client::should_tx_be_disputed`. -/
def Client.should_tx_be_disputed (c : Client) (tx_id : Nat) (b : Bool) : Bool :=
  c.disputed_transactions tx_id == b

/-- `Client::get_tx`: look the id up in the history map. -/
def Client.get_tx (c : Client) (tx_id : Nat) : Except Rejection Transaction :=
  match c.transactions tx_id with
  | some t => .ok t
  | none => .error .UnknownTransaction

/-- `Client::tx_is_not_disputed`. -/
def Client.tx_is_not_disputed (c : Client) (tx_id : Nat) : Except Rejection Unit :=
  if c.should_tx_be_disputed tx_id false then .ok () else .error .AlreadyDisputed

/-- `Client::tx_is_disputed`. -/
def Client.tx_is_disputed (c : Client) (tx_id : Nat) : Except Rejection Unit :=
  if c.should_tx_be_disputed tx_id true then .ok () else .error .NotDisputed

/-- `Client::can_withdraw`. -/
def Client.can_withdraw (c : Client) (withdrawal_amount : ℚ) : Bool :=
  c.funds.available ≥ withdrawal_amount

/-- `Client::deposit_amount`: monotonicity check, then add the (unwrapped)
amount to `available` and record the transaction. -/
def Client.deposit_amount (c : Client) (tx_id : Nat) (tx : Transaction) :
    Option (Except Rejection Unit × Client) :=
  match c.ensure_future_tx tx_id with
  | .error e => some (.error e, c)
  | .ok _ =>
    match tx.amount with
    | none => none
    | some a =>
      some (.ok (),
        Client.add_tx
          { c with funds := { c.funds with available := c.funds.available + a } }
          tx_id tx)

/-- `Client::withdraw_amount`: monotonicity check, unwrap the amount, then a
sufficiency check before subtracting from `available` and recording. -/
def Client.withdraw_amount (c : Client) (tx_id : Nat) (tx : Transaction) :
    Option (Except Rejection Unit × Client) :=
  match c.ensure_future_tx tx_id with
  | .error e => some (.error e, c)
  | .ok _ =>
    match tx.amount with
    | none => none
    | some a =>
      if c.can_withdraw a then
        some (.ok (),
          Client.add_tx
            { c with funds := { c.funds with available := c.funds.available - a } }
            tx_id tx)
      else
        some (.error .InsufficientFunds, c)

/-- `Client::resolve_amount`: move an amount from held back to available. -/
def Client.resolve_amount (c : Client) (resolve_amount : ℚ) : Client :=
  { c with funds := { available := c.funds.available + resolve_amount,
                      held := c.funds.held - resolve_amount } }

/-- `Client::withhold_amount`: move an amount from available to held. -/
def Client.withhold_amount (c : Client) (disputed_amount : ℚ) : Client :=
  { c with funds := { available := c.funds.available - disputed_amount,
                      held := c.funds.held + disputed_amount } }

/-- `Client::chargeback_amount`: subtract an amount from held only. -/
def Client.chargeback_amount (c : Client) (chargeback_amount : ℚ) : Client :=
  { c with funds := { c.funds with held := c.funds.held - chargeback_amount } }

/-- `Client::dispute_transaction`: require not already disputed, require the
referenced transaction to exist, withhold its (unwrapped) amount, mark it
disputed. -/
def Client.dispute_transaction (c : Client) (tx_id : Nat) :
    Option (Except Rejection Unit × Client) :=
  match c.tx_is_not_disputed tx_id with
  | .error e => some (.error e, c)
  | .ok _ =>
    match c.get_tx tx_id with
    | .error e => some (.error e, c)
    | .ok t =>
      match t.amount with
      | none => none
      | some a =>
        let c1 := c.withhold_amount a
        some (.ok (),
          { c1 with disputed_transactions := setInsert c1.disputed_transactions tx_id })

/-- `Client::resolve_transaction`: require disputed, require the referenced
transaction to exist, release its (unwrapped) amount, unmark it. -/
def Client.resolve_transaction (c : Client) (tx_id : Nat) :
    Option (Except Rejection Unit × Client) :=
  match c.tx_is_disputed tx_id with
  | .error e => some (.error e, c)
  | .ok _ =>
    match c.get_tx tx_id with
    | .error e => some (.error e, c)
    | .ok t =>
      match t.amount with
      | none => none
      | some a =>
        let c1 := c.resolve_amount a
        some (.ok (),
          { c1 with disputed_transactions := setRemove c1.disputed_transactions tx_id })

/-- `Client::chargeback_transaction`: require disputed, require the referenced
transaction to exist, subtract its (unwrapped) amount from held, lock the
account, unmark it. -/
def Client.chargeback_transaction (c : Client) (tx_id : Nat) :
    Option (Except Rejection Unit × Client) :=
  match c.tx_is_disputed tx_id with
  | .error e => some (.error e, c)
  | .ok _ =>
    match c.get_tx tx_id with
    | .error e => some (.error e, c)
    | .ok t =>
      match t.amount with
      | none => none
      | some a =>
        let c1 := c.chargeback_amount a
        some (.ok (),
          { c1 with locked := true,
                    disputed_transactions := setRemove c1.disputed_transactions tx_id })

/-- `Client::handle_transaction`: reject everything when locked, else dispatch
on the transaction kind. -/
def Client.handle_transaction (c : Client) (tx : Transaction) :
    Option (Except Rejection Unit × Client) :=
  if c.is_locked then
    some (.error .AccountLocked, c)
  else
    match tx.tx_type with
    | .Deposit => c.deposit_amount tx.tx_id tx
    | .Withdrawal => c.withdraw_amount tx.tx_id tx
    | .Dispute => c.dispute_transaction tx.tx_id
    | .Resolve => c.resolve_transaction tx.tx_id
    | .Chargeback => c.chargeback_transaction tx.tx_id

/-- The registry map `Clients` of `lib.rs`, keyed by client id. -/
def ClientsMap : Type :=
  Nat → Option Client

/-- Pointwise update embedding `HashMap` insertion/entry update for the
registry. -/
def clientsUpdate (m : ClientsMap) (k : Nat) (c : Client) : ClientsMap :=
  fun x => if x = k then some c else m x

/-- One iteration of the loop in `process_transactions` (`lib.rs`):
`clients.entry(id).and_modify(handle).or_insert(Client::new(tx_id, tx))`.
When the entry is occupied, `and_modify` runs `handle_transaction` (its
rejection is only logged, the mutated client stays) and then the `or_insert`
argument `Client::new(tx.tx_id(), tx)` is still evaluated eagerly (a panic
there propagates) before being discarded; when vacant, the freshly built
client is inserted. -/
def process_step (clients : ClientsMap) (tx : Transaction) : Option ClientsMap :=
  match clients tx.client_id with
  | some c =>
    (c.handle_transaction tx).bind fun p =>
      (Client.new tx.tx_id tx).map fun _ =>
        clientsUpdate clients tx.client_id p.2
  | none =>
    (Client.new tx.tx_id tx).map fun c =>
      clientsUpdate clients tx.client_id c

/-- `process_transactions` (`lib.rs`): fold the stream over an initially empty
registry; `none` embeds a panic escaping the loop. -/
def process_transactions (txs : List Transaction) : Option ClientsMap :=
  txs.foldlM process_step (fun _ => none)

/-- Apply a list of transactions to one client with `handle_transaction`,
keeping the post-state whether each call was accepted or rejected (as the
registry does); `none` embeds a panic. -/
def apply_all (c : Client) : List Transaction → Option Client
  | [] => some c
  | tx :: rest =>
    match c.handle_transaction tx with
    | none => none
    | some (_, c1) => apply_all c1 rest

/-! ## Shared lemmas about rejection paths -/

theorem deposit_amount_error_frame (c : Client) (id : Nat) (tx : Transaction)
    (r : Rejection) (c' : Client)
    (h : c.deposit_amount id tx = some (.error r, c')) : c' = c := by
  unfold Client.deposit_amount at h
  split at h
  · simp_all
  · split at h <;> simp_all

theorem withdraw_amount_error_frame (c : Client) (id : Nat) (tx : Transaction)
    (r : Rejection) (c' : Client)
    (h : c.withdraw_amount id tx = some (.error r, c')) : c' = c := by
  unfold Client.withdraw_amount at h
  split at h
  · simp_all
  · split at h
    · simp_all
    · split at h <;> simp_all

theorem dispute_transaction_error_frame (c : Client) (id : Nat)
    (r : Rejection) (c' : Client)
    (h : c.dispute_transaction id = some (.error r, c')) : c' = c := by
  unfold Client.dispute_transaction at h
  split at h
  · simp_all
  · split at h
    · simp_all
    · split at h <;> simp_all

theorem resolve_transaction_error_frame (c : Client) (id : Nat)
    (r : Rejection) (c' : Client)
    (h : c.resolve_transaction id = some (.error r, c')) : c' = c := by
  unfold Client.resolve_transaction at h
  split at h
  · simp_all
  · split at h
    · simp_all
    · split at h <;> simp_all

theorem chargeback_transaction_error_frame (c : Client) (id : Nat)
    (r : Rejection) (c' : Client)
    (h : c.chargeback_transaction id = some (.error r, c')) : c' = c := by
  unfold Client.chargeback_transaction at h
  split at h
  · simp_all
  · split at h
    · simp_all
    · split at h <;> simp_all

/-- Every rejection path of `handle_transaction` returns the ledger unchanged. -/
theorem handle_error_frame (c : Client) (tx : Transaction) (r : Rejection) (c' : Client)
    (h : c.handle_transaction tx = some (.error r, c')) : c' = c := by
  unfold Client.handle_transaction at h
  split at h
  · simp_all
  · split at h
    · exact deposit_amount_error_frame c tx.tx_id tx r c' h
    · exact withdraw_amount_error_frame c tx.tx_id tx r c' h
    · exact dispute_transaction_error_frame c tx.tx_id r c' h
    · exact resolve_transaction_error_frame c tx.tx_id r c' h
    · exact chargeback_transaction_error_frame c tx.tx_id r c' h

/-! ## Concrete fixtures used by witnesses and counterexamples -/

/-- A deposit of 10 with tx id 1 for client 1. -/
def txDep1 : Transaction :=
  { tx_type := .Deposit, client_id := 1, tx_id := 1, amount := some 10 }

/-- The ledger produced by seeding with `txDep1`. -/
def cDep1 : Client :=
  { funds := { available := 10, held := 0 }
    transactions := fun k => if k = 1 then some txDep1 else none
    disputed_transactions := fun _ => false
    past_tx := 1
    locked := false }

example : Client.new 1 txDep1 = some cDep1 := rfl

/-- A second deposit fixture (tx id 2, amount 5). -/
def txDep2 : Transaction :=
  { tx_type := .Deposit, client_id := 1, tx_id := 2, amount := some 5 }

/-- The `txDep1` ledger with the lock flag set. -/
def cLocked : Client :=
  { cDep1 with locked := true }

/-- C1: a rejected transaction changes nothing: every field of the ledger —
available, held, locked, the disputed set, the high watermark and the history
map — is the same after `handle_transaction` returns an error as before. -/
theorem handle_rejection_atomic (c : Client) (tx : Transaction) (r : Rejection) (c' : Client)
    (h : c.handle_transaction tx = some (.error r, c')) :
    c'.funds.available = c.funds.available ∧ c'.funds.held = c.funds.held ∧
    c'.locked = c.locked ∧ c'.disputed_transactions = c.disputed_transactions ∧
    c'.past_tx = c.past_tx ∧ c'.transactions = c.transactions := by
  have hc := handle_error_frame c tx r c' h
  subst hc
  exact ⟨rfl, rfl, rfl, rfl, rfl, rfl⟩

/-- Witness for C1 at a concrete rejected transaction (locked account). -/
theorem handle_rejection_atomic_witness :
    cLocked.funds.available = cLocked.funds.available ∧
    cLocked.funds.held = cLocked.funds.held ∧
    cLocked.locked = cLocked.locked ∧
    cLocked.disputed_transactions = cLocked.disputed_transactions ∧
    cLocked.past_tx = cLocked.past_tx ∧
    cLocked.transactions = cLocked.transactions :=
  handle_rejection_atomic cLocked txDep2 .AccountLocked cLocked rfl

theorem deposit_amount_locked_eq (c : Client) (id : Nat) (tx : Transaction)
    (r : Except Rejection Unit) (c' : Client)
    (h : c.deposit_amount id tx = some (r, c')) : c'.locked = c.locked := by
  unfold Client.deposit_amount at h
  split at h
  · simp_all
  · split at h
    · simp_all
    · simp only [Option.some.injEq, Prod.mk.injEq] at h
      rw [← h.2]
      rfl

theorem withdraw_amount_locked_eq (c : Client) (id : Nat) (tx : Transaction)
    (r : Except Rejection Unit) (c' : Client)
    (h : c.withdraw_amount id tx = some (r, c')) : c'.locked = c.locked := by
  unfold Client.withdraw_amount at h
  split at h
  · simp_all
  · split at h
    · simp_all
    · split at h
      · simp only [Option.some.injEq, Prod.mk.injEq] at h
        rw [← h.2]
        rfl
      · simp_all

theorem dispute_transaction_locked_eq (c : Client) (id : Nat)
    (r : Except Rejection Unit) (c' : Client)
    (h : c.dispute_transaction id = some (r, c')) : c'.locked = c.locked := by
  unfold Client.dispute_transaction at h
  split at h
  · simp_all
  · split at h
    · simp_all
    · split at h
      · simp_all
      · simp only [Option.some.injEq, Prod.mk.injEq] at h
        rw [← h.2]
        rfl

theorem resolve_transaction_locked_eq (c : Client) (id : Nat)
    (r : Except Rejection Unit) (c' : Client)
    (h : c.resolve_transaction id = some (r, c')) : c'.locked = c.locked := by
  unfold Client.resolve_transaction at h
  split at h
  · simp_all
  · split at h
    · simp_all
    · split at h
      · simp_all
      · simp only [Option.some.injEq, Prod.mk.injEq] at h
        rw [← h.2]
        rfl

/-- C2: the lock is terminal and only a chargeback sets it. A locked ledger
rejects every transaction with `AccountLocked` and stays unchanged; a
transition from unlocked to locked can only be a successful Chargeback; and no
call ever clears the lock. -/
theorem locked_terminal_only_chargeback (c : Client) (tx : Transaction) :
    (c.locked = true → c.handle_transaction tx = some (.error .AccountLocked, c)) ∧
    (∀ r c', c.handle_transaction tx = some (r, c') → c.locked = false →
      c'.locked = true → tx.tx_type = .Chargeback ∧ r = .ok ()) ∧
    (∀ r c', c.handle_transaction tx = some (r, c') → c.locked = true →
      c'.locked = true) := by
  refine ⟨?_, ?_, ?_⟩
  · intro hl
    unfold Client.handle_transaction Client.is_locked
    rw [hl]
    rfl
  · intro r c' h hf hl'
    unfold Client.handle_transaction Client.is_locked at h
    rw [hf] at h
    simp only [Bool.false_eq_true, if_false] at h
    cases htt : tx.tx_type <;> rw [htt] at h
    · exact absurd (deposit_amount_locked_eq c tx.tx_id tx r c' h ▸ hl') (by simp [hf])
    · exact absurd (withdraw_amount_locked_eq c tx.tx_id tx r c' h ▸ hl') (by simp [hf])
    · exact absurd (dispute_transaction_locked_eq c tx.tx_id r c' h ▸ hl') (by simp [hf])
    · exact absurd (resolve_transaction_locked_eq c tx.tx_id r c' h ▸ hl') (by simp [hf])
    · refine ⟨rfl, ?_⟩
      cases r with
      | ok u => rfl
      | error e =>
        have hc := chargeback_transaction_error_frame c tx.tx_id e c' h
        subst hc
        rw [hf] at hl'
        exact absurd hl' (by simp)
  · intro r c' h hl
    unfold Client.handle_transaction Client.is_locked at h
    rw [hl] at h
    simp only [if_true] at h
    simp only [Option.some.injEq, Prod.mk.injEq] at h
    rw [← h.2]
    exact hl

/-- Witness for C2 at a concrete locked ledger. -/
theorem locked_terminal_only_chargeback_witness :
    cLocked.handle_transaction txDep2 = some (.error .AccountLocked, cLocked) :=
  (locked_terminal_only_chargeback cLocked txDep2).1 rfl

theorem dispute_transaction_no_monotonic (c : Client) (id : Nat) (c' : Client) :
    c.dispute_transaction id ≠ some (.error .NonMonotonicTx, c') := by
  intro h
  unfold Client.dispute_transaction at h
  split at h
  · rename_i e heq
    unfold Client.tx_is_not_disputed at heq
    split at heq <;> simp_all
  · split at h
    · rename_i e heq
      unfold Client.get_tx at heq
      split at heq <;> simp_all
    · split at h <;> simp_all

theorem resolve_transaction_no_monotonic (c : Client) (id : Nat) (c' : Client) :
    c.resolve_transaction id ≠ some (.error .NonMonotonicTx, c') := by
  intro h
  unfold Client.resolve_transaction at h
  split at h
  · rename_i e heq
    unfold Client.tx_is_disputed at heq
    split at heq <;> simp_all
  · split at h
    · rename_i e heq
      unfold Client.get_tx at heq
      split at heq <;> simp_all
    · split at h <;> simp_all

theorem chargeback_transaction_no_monotonic (c : Client) (id : Nat) (c' : Client) :
    c.chargeback_transaction id ≠ some (.error .NonMonotonicTx, c') := by
  intro h
  unfold Client.chargeback_transaction at h
  split at h
  · rename_i e heq
    unfold Client.tx_is_disputed at heq
    split at heq <;> simp_all
  · split at h
    · rename_i e heq
      unfold Client.get_tx at heq
      split at heq <;> simp_all
    · split at h <;> simp_all

/-- C3: the monotonicity check applies exactly to the monetary kinds. On an
unlocked ledger a Deposit or Withdrawal whose tx id is at or below the high
watermark is rejected with `NonMonotonicTx` whatever its amount and whatever
the available funds, while a Dispute, Resolve or Chargeback can never produce
a `NonMonotonicTx` rejection. -/
theorem monotonicity_check_scope (c : Client) (tx : Transaction) (hl : c.locked = false) :
    ((tx.tx_type = .Deposit ∨ tx.tx_type = .Withdrawal) → tx.tx_id ≤ c.past_tx →
      c.handle_transaction tx = some (.error .NonMonotonicTx, c)) ∧
    ((tx.tx_type = .Dispute ∨ tx.tx_type = .Resolve ∨ tx.tx_type = .Chargeback) →
      ∀ c', c.handle_transaction tx ≠ some (.error .NonMonotonicTx, c')) := by
  constructor
  · intro hk hle
    have hnlt : ¬ c.past_tx < tx.tx_id := Nat.not_lt.mpr hle
    unfold Client.handle_transaction Client.is_locked
    rw [hl]
    simp only [Bool.false_eq_true, if_false]
    rcases hk with hk | hk <;> rw [hk]
    · unfold Client.deposit_amount Client.ensure_future_tx
      simp [hnlt]
    · unfold Client.withdraw_amount Client.ensure_future_tx
      simp [hnlt]
  · intro hk c'
    unfold Client.handle_transaction Client.is_locked
    rw [hl]
    simp only [Bool.false_eq_true, if_false]
    rcases hk with hk | hk | hk <;> rw [hk]
    · exact dispute_transaction_no_monotonic c tx.tx_id c'
    · exact resolve_transaction_no_monotonic c tx.tx_id c'
    · exact chargeback_transaction_no_monotonic c tx.tx_id c'

/-- A stale deposit fixture: tx id 1 again (not above the watermark of
`cDep1`), large amount. -/
def txDepStale : Transaction :=
  { tx_type := .Deposit, client_id := 1, tx_id := 1, amount := some 99 }

/-- Witness for C3 at a concrete stale deposit. -/
theorem monotonicity_check_scope_witness :
    cDep1.handle_transaction txDepStale = some (.error .NonMonotonicTx, cDep1) :=
  (monotonicity_check_scope cDep1 txDepStale rfl).1 (Or.inl rfl) (by decide)

/-- A deposit of 10 with tx id 5 for client 1. -/
def txDep5 : Transaction :=
  { tx_type := .Deposit, client_id := 1, tx_id := 5, amount := some 10 }

/-- The ledger produced by seeding with `txDep5` (watermark 5). -/
def cDep5 : Client :=
  { funds := { available := 10, held := 0 }
    transactions := fun k => if k = 5 then some txDep5 else none
    disputed_transactions := fun _ => false
    past_tx := 5
    locked := false }

example : Client.new 5 txDep5 = some cDep5 := rfl

/-- A withdrawal of 1 with the stale tx id 3 for client 1. -/
def txWStale : Transaction :=
  { tx_type := .Withdrawal, client_id := 1, tx_id := 3, amount := some 1 }

/-- Counterexample to C4 as stated: on an unlocked ledger with available = 10
and watermark 5, a withdrawal of amount 1 ≤ available is nevertheless rejected
(`NonMonotonicTx`), because its tx id 3 is not above the watermark — so
"succeeds iff amount ≤ available" fails in the "if" direction. -/
theorem withdrawal_success_iff_counterexample :
    cDep5.locked = false ∧ txWStale.tx_type = .Withdrawal ∧
    txWStale.amount = some 1 ∧ ((1 : ℚ) ≤ cDep5.funds.available) ∧
    cDep5.handle_transaction txWStale = some (.error .NonMonotonicTx, cDep5) :=
  ⟨rfl, rfl, rfl, by norm_num [cDep5], rfl⟩

/-- C4 as amended: on an unlocked ledger a Withdrawal carrying amount `a`
succeeds iff its tx id is strictly above the high watermark AND `a` is at most
the available balance; a rejected withdrawal leaves available and held
unchanged. -/
theorem withdrawal_success_iff (c : Client) (tx : Transaction) (a : ℚ)
    (hl : c.locked = false) (ht : tx.tx_type = .Withdrawal) (ha : tx.amount = some a) :
    ((∃ c', c.handle_transaction tx = some (.ok (), c')) ↔
      (c.past_tx < tx.tx_id ∧ a ≤ c.funds.available)) ∧
    (∀ r c', c.handle_transaction tx = some (.error r, c') →
      c'.funds.available = c.funds.available ∧ c'.funds.held = c.funds.held) := by
  constructor
  · unfold Client.handle_transaction Client.is_locked
    rw [hl, ht]
    simp only [Bool.false_eq_true, if_false]
    unfold Client.withdraw_amount Client.ensure_future_tx Client.can_withdraw
    rw [ha]
    by_cases hlt : c.past_tx < tx.tx_id
    · rw [if_pos hlt]
      by_cases hcw : a ≤ c.funds.available
      · constructor
        · intro _
          exact ⟨hlt, hcw⟩
        · intro _
          refine ⟨Client.add_tx
            { c with funds := { c.funds with available := c.funds.available - a } }
            tx.tx_id tx, ?_⟩
          simp [ge_iff_le, hcw]
      · constructor
        · intro hex
          obtain ⟨c', hc'⟩ := hex
          simp [ge_iff_le, hcw] at hc'
        · intro hand
          exact absurd hand.2 hcw
    · rw [if_neg hlt]
      constructor
      · intro hex
        obtain ⟨c', hc'⟩ := hex
        simp at hc'
      · intro hand
        exact absurd hand.1 hlt
  · intro r c' h
    have hc := handle_error_frame c tx r c' h
    subst hc
    exact ⟨rfl, rfl⟩

/-- A withdrawal of 4 with tx id 2 for client 1. -/
def txW2 : Transaction :=
  { tx_type := .Withdrawal, client_id := 1, tx_id := 2, amount := some 4 }

/-- Witness for the amended C4 at a concrete withdrawal that satisfies both
conditions. -/
theorem withdrawal_success_iff_witness :
    (∃ c', cDep1.handle_transaction txW2 = some (.ok (), c')) ↔
      (cDep1.past_tx < txW2.tx_id ∧ (4 : ℚ) ≤ cDep1.funds.available) :=
  (withdrawal_success_iff cDep1 txW2 4 rfl rfl rfl).1

/-! ## Success-path computation lemmas -/

theorem dispute_transaction_success (c : Client) (id : Nat) (t : Transaction) (a : ℚ)
    (hnd : c.disputed_transactions id = false)
    (hmem : c.transactions id = some t) (hamt : t.amount = some a) :
    c.dispute_transaction id =
      some (.ok (),
        { funds := { available := c.funds.available - a, held := c.funds.held + a }
          transactions := c.transactions
          disputed_transactions := setInsert c.disputed_transactions id
          past_tx := c.past_tx
          locked := c.locked }) := by
  unfold Client.dispute_transaction Client.tx_is_not_disputed
    Client.should_tx_be_disputed Client.get_tx Client.withhold_amount
  rw [hnd, hmem]
  simp [hamt]

theorem resolve_transaction_success (c : Client) (id : Nat) (t : Transaction) (a : ℚ)
    (hd : c.disputed_transactions id = true)
    (hmem : c.transactions id = some t) (hamt : t.amount = some a) :
    c.resolve_transaction id =
      some (.ok (),
        { funds := { available := c.funds.available + a, held := c.funds.held - a }
          transactions := c.transactions
          disputed_transactions := setRemove c.disputed_transactions id
          past_tx := c.past_tx
          locked := c.locked }) := by
  unfold Client.resolve_transaction Client.tx_is_disputed
    Client.should_tx_be_disputed Client.get_tx Client.resolve_amount
  rw [hd, hmem]
  simp [hamt]

theorem chargeback_transaction_success (c : Client) (id : Nat) (t : Transaction) (a : ℚ)
    (hd : c.disputed_transactions id = true)
    (hmem : c.transactions id = some t) (hamt : t.amount = some a) :
    c.chargeback_transaction id =
      some (.ok (),
        { funds := { available := c.funds.available, held := c.funds.held - a }
          transactions := c.transactions
          disputed_transactions := setRemove c.disputed_transactions id
          past_tx := c.past_tx
          locked := true }) := by
  unfold Client.chargeback_transaction Client.tx_is_disputed
    Client.should_tx_be_disputed Client.get_tx Client.chargeback_amount
  rw [hd, hmem]
  simp [hamt]

/-- On an unlocked ledger, `handle_transaction` of a dispute-kind reference
delegates to the corresponding sub-operation. -/
theorem handle_unlocked_dispatch (c : Client) (tx : Transaction) (hl : c.locked = false) :
    c.handle_transaction tx =
      match tx.tx_type with
      | .Deposit => c.deposit_amount tx.tx_id tx
      | .Withdrawal => c.withdraw_amount tx.tx_id tx
      | .Dispute => c.dispute_transaction tx.tx_id
      | .Resolve => c.resolve_transaction tx.tx_id
      | .Chargeback => c.chargeback_transaction tx.tx_id := by
  unfold Client.handle_transaction Client.is_locked
  rw [hl]
  simp

/-- A dispute-kind seed transaction (tx id 1, no amount). -/
def txSeedDispute : Transaction :=
  { tx_type := .Dispute, client_id := 1, tx_id := 1, amount := none }

/-- The ledger produced by seeding with `txSeedDispute`: the no-amount seed
sits in the history map. -/
def cSeedDispute : Client :=
  { funds := { available := 0, held := 0 }
    transactions := fun k => if k = 1 then some txSeedDispute else none
    disputed_transactions := fun _ => false
    past_tx := 1
    locked := false }

/-- Counterexample to C5 as stated: `cSeedDispute` is unlocked, tx id 1 is in
its history and not in its disputed set, yet applying a Dispute referencing
tx id 1 does not succeed — it reaches `unwrap` on a `None` amount and panics
(embedded as `none`), so no Dispute-then-Resolve round trip happens. -/
theorem dispute_resolve_roundtrip_counterexample :
    Client.new 1 txSeedDispute = some cSeedDispute ∧
    cSeedDispute.locked = false ∧
    cSeedDispute.transactions 1 = some txSeedDispute ∧
    cSeedDispute.disputed_transactions 1 = false ∧
    cSeedDispute.handle_transaction txSeedDispute = none :=
  ⟨rfl, rfl, rfl, rfl, rfl⟩

/-- C5 as amended: for every unlocked ledger and every tx id whose history
entry carries an amount and which is not yet disputed, a Dispute then a
Resolve on that id both succeed and restore available and held to their
pre-dispute values exactly, leaving the id out of the disputed set. -/
theorem dispute_resolve_roundtrip (c : Client) (id : Nat) (t : Transaction) (a : ℚ)
    (d rv : Transaction)
    (hl : c.locked = false)
    (hmem : c.transactions id = some t) (hamt : t.amount = some a)
    (hnd : c.disputed_transactions id = false)
    (hd : d.tx_type = .Dispute) (hdid : d.tx_id = id)
    (hr : rv.tx_type = .Resolve) (hrid : rv.tx_id = id) :
    ∃ c1 c2, c.handle_transaction d = some (.ok (), c1) ∧
      c1.handle_transaction rv = some (.ok (), c2) ∧
      c2.funds.available = c.funds.available ∧
      c2.funds.held = c.funds.held ∧
      c2.disputed_transactions id = false := by
  refine ⟨{ funds := { available := c.funds.available - a, held := c.funds.held + a }
            transactions := c.transactions
            disputed_transactions := setInsert c.disputed_transactions id
            past_tx := c.past_tx
            locked := c.locked },
          { funds := { available := c.funds.available - a + a, held := c.funds.held + a - a }
            transactions := c.transactions
            disputed_transactions := setRemove (setInsert c.disputed_transactions id) id
            past_tx := c.past_tx
            locked := c.locked },
          ?_, ?_, ?_, ?_, ?_⟩
  · rw [handle_unlocked_dispatch c d hl, hd, hdid]
    exact dispute_transaction_success c id t a hnd hmem hamt
  · rw [handle_unlocked_dispatch
      { funds := { available := c.funds.available - a, held := c.funds.held + a }
        transactions := c.transactions
        disputed_transactions := setInsert c.disputed_transactions id
        past_tx := c.past_tx
        locked := c.locked } rv hl, hr, hrid]
    exact resolve_transaction_success _ id t a (by simp [setInsert]) hmem hamt
  · show c.funds.available - a + a = c.funds.available
    ring
  · show c.funds.held + a - a = c.funds.held
    ring
  · show setRemove (setInsert c.disputed_transactions id) id id = false
    simp [setRemove]

/-- A dispute reference to tx id 1. -/
def txDisp1 : Transaction :=
  { tx_type := .Dispute, client_id := 1, tx_id := 1, amount := none }

/-- A resolve reference to tx id 1. -/
def txRes1 : Transaction :=
  { tx_type := .Resolve, client_id := 1, tx_id := 1, amount := none }

/-- Witness for the amended C5 on the deposit-seeded ledger `cDep1`. -/
theorem dispute_resolve_roundtrip_witness :
    ∃ c1 c2, cDep1.handle_transaction txDisp1 = some (.ok (), c1) ∧
      c1.handle_transaction txRes1 = some (.ok (), c2) ∧
      c2.funds.available = cDep1.funds.available ∧
      c2.funds.held = cDep1.funds.held ∧
      c2.disputed_transactions 1 = false :=
  dispute_resolve_roundtrip cDep1 1 txDep1 10 txDisp1 txRes1
    rfl rfl rfl rfl rfl rfl rfl rfl


/-- The history map of a client holds only monetary (Deposit/Withdrawal)
transactions. -/
def history_monetary (c : Client) : Prop :=
  ∀ k t, c.transactions k = some t →
    t.tx_type = .Deposit ∨ t.tx_type = .Withdrawal

theorem deposit_amount_transactions_shape (c : Client) (id : Nat) (tx : Transaction)
    (r : Except Rejection Unit) (c' : Client)
    (h : c.deposit_amount id tx = some (r, c')) :
    c'.transactions = c.transactions ∨
    c'.transactions = mapInsert c.transactions id tx := by
  unfold Client.deposit_amount at h
  split at h
  · simp only [Option.some.injEq, Prod.mk.injEq] at h
    rw [← h.2]
    exact Or.inl rfl
  · split at h
    · exact absurd h (by simp)
    · simp only [Option.some.injEq, Prod.mk.injEq] at h
      rw [← h.2]
      exact Or.inr rfl

theorem withdraw_amount_transactions_shape (c : Client) (id : Nat) (tx : Transaction)
    (r : Except Rejection Unit) (c' : Client)
    (h : c.withdraw_amount id tx = some (r, c')) :
    c'.transactions = c.transactions ∨
    c'.transactions = mapInsert c.transactions id tx := by
  unfold Client.withdraw_amount at h
  split at h
  · simp only [Option.some.injEq, Prod.mk.injEq] at h
    rw [← h.2]
    exact Or.inl rfl
  · split at h
    · exact absurd h (by simp)
    · split at h
      · simp only [Option.some.injEq, Prod.mk.injEq] at h
        rw [← h.2]
        exact Or.inr rfl
      · simp only [Option.some.injEq, Prod.mk.injEq] at h
        rw [← h.2]
        exact Or.inl rfl

theorem dispute_transaction_transactions_eq (c : Client) (id : Nat)
    (r : Except Rejection Unit) (c' : Client)
    (h : c.dispute_transaction id = some (r, c')) :
    c'.transactions = c.transactions := by
  unfold Client.dispute_transaction at h
  split at h
  · simp only [Option.some.injEq, Prod.mk.injEq] at h
    rw [← h.2]
  · split at h
    · simp only [Option.some.injEq, Prod.mk.injEq] at h
      rw [← h.2]
    · split at h
      · exact absurd h (by simp)
      · simp only [Option.some.injEq, Prod.mk.injEq] at h
        rw [← h.2]
        rfl

theorem resolve_transaction_transactions_eq (c : Client) (id : Nat)
    (r : Except Rejection Unit) (c' : Client)
    (h : c.resolve_transaction id = some (r, c')) :
    c'.transactions = c.transactions := by
  unfold Client.resolve_transaction at h
  split at h
  · simp only [Option.some.injEq, Prod.mk.injEq] at h
    rw [← h.2]
  · split at h
    · simp only [Option.some.injEq, Prod.mk.injEq] at h
      rw [← h.2]
    · split at h
      · exact absurd h (by simp)
      · simp only [Option.some.injEq, Prod.mk.injEq] at h
        rw [← h.2]
        rfl

theorem chargeback_transaction_transactions_eq (c : Client) (id : Nat)
    (r : Except Rejection Unit) (c' : Client)
    (h : c.chargeback_transaction id = some (r, c')) :
    c'.transactions = c.transactions := by
  unfold Client.chargeback_transaction at h
  split at h
  · simp only [Option.some.injEq, Prod.mk.injEq] at h
    rw [← h.2]
  · split at h
    · simp only [Option.some.injEq, Prod.mk.injEq] at h
      rw [← h.2]
    · split at h
      · exact absurd h (by simp)
      · simp only [Option.some.injEq, Prod.mk.injEq] at h
        rw [← h.2]
        rfl

/-- The history map after a `handle_transaction` call is either untouched or
extended with the handled monetary transaction. -/
theorem handle_transactions_shape (c : Client) (tx : Transaction)
    (r : Except Rejection Unit) (c' : Client)
    (h : c.handle_transaction tx = some (r, c')) :
    c'.transactions = c.transactions ∨
    ((tx.tx_type = .Deposit ∨ tx.tx_type = .Withdrawal) ∧
      c'.transactions = mapInsert c.transactions tx.tx_id tx) := by
  unfold Client.handle_transaction at h
  split at h
  · simp only [Option.some.injEq, Prod.mk.injEq] at h
    rw [← h.2]
    exact Or.inl rfl
  · split at h
    · rename_i heq
      rcases deposit_amount_transactions_shape c tx.tx_id tx r c' h with hs | hs
      · exact Or.inl hs
      · exact Or.inr ⟨Or.inl heq, hs⟩
    · rename_i heq
      rcases withdraw_amount_transactions_shape c tx.tx_id tx r c' h with hs | hs
      · exact Or.inl hs
      · exact Or.inr ⟨Or.inr heq, hs⟩
    · exact Or.inl (dispute_transaction_transactions_eq c tx.tx_id r c' h)
    · exact Or.inl (resolve_transaction_transactions_eq c tx.tx_id r c' h)
    · exact Or.inl (chargeback_transaction_transactions_eq c tx.tx_id r c' h)

theorem handle_preserves_history_monetary (c : Client) (tx : Transaction)
    (r : Except Rejection Unit) (c' : Client)
    (h : c.handle_transaction tx = some (r, c'))
    (hc : history_monetary c) : history_monetary c' := by
  intro k u hk
  rcases handle_transactions_shape c tx r c' h with hs | ⟨hkind, hs⟩
  · rw [hs] at hk
    exact hc k u hk
  · rw [hs] at hk
    unfold mapInsert at hk
    by_cases hke : k = tx.tx_id
    · rw [if_pos hke] at hk
      injection hk with hk
      rw [← hk]
      exact hkind
    · rw [if_neg hke] at hk
      exact hc k u hk

theorem new_transactions_eq (id : Nat) (tx : Transaction) (c : Client)
    (h : Client.new id tx = some c) :
    c.transactions = fun k => if k = id then some tx else none := by
  unfold Client.new at h
  cases hf : Funds.new tx with
  | none =>
    rw [hf] at h
    exact absurd h (by simp)
  | some f =>
    rw [hf] at h
    simp only [Option.map_some', Option.some.injEq] at h
    rw [← h]

theorem apply_all_preserves_history_monetary (txs : List Transaction) :
    ∀ c c', apply_all c txs = some c' → history_monetary c → history_monetary c' := by
  induction txs with
  | nil =>
    intro c c' h hc
    unfold apply_all at h
    simp only [Option.some.injEq] at h
    rw [← h]
    exact hc
  | cons tx rest ih =>
    intro c c' h hc
    unfold apply_all at h
    split at h
    · exact absurd h (by simp)
    · rename_i r c1 heq
      exact ih c1 c' h (handle_preserves_history_monetary c tx r c1 heq hc)

/-- Counterexample to C6 as stated: `Client::new` stores its seed transaction
in the history map whatever its kind, so the reachable ledger seeded with a
Dispute transaction holds a Dispute-kind entry in the map. -/
theorem history_only_monetary_counterexample :
    Client.new 1 txSeedDispute = some cSeedDispute ∧
    cSeedDispute.transactions 1 = some txSeedDispute ∧
    txSeedDispute.tx_type = .Dispute :=
  ⟨rfl, rfl, rfl⟩

/-- C6 as amended: when the seed transaction is itself a Deposit or a
Withdrawal, every transaction stored in the history map of any state reached
from the constructed ledger by a sequence of `handle_transaction` calls is a
Deposit or a Withdrawal. -/
theorem history_only_monetary (seed : Transaction) (id : Nat) (txs : List Transaction)
    (c0 c : Client)
    (hk : seed.tx_type = .Deposit ∨ seed.tx_type = .Withdrawal)
    (h0 : Client.new id seed = some c0)
    (h : apply_all c0 txs = some c)
    (k : Nat) (t : Transaction) (ht : c.transactions k = some t) :
    t.tx_type = .Deposit ∨ t.tx_type = .Withdrawal := by
  have hm0 : history_monetary c0 := by
    intro k' t' hk'
    have he := congrFun (new_transactions_eq id seed c0 h0) k'
    rw [hk'] at he
    by_cases hke : k' = id
    · rw [if_pos hke] at he
      injection he with he
      rw [he]
      exact hk
    · rw [if_neg hke] at he
      exact absurd he (by simp)
  exact apply_all_preserves_history_monetary txs c0 c h hm0 k t ht

/-- Witness for the amended C6: seed `txDep1`, then a withdrawal, and check
the entry recorded at key 2. -/
theorem history_only_monetary_witness :
    txW2.tx_type = .Deposit ∨ txW2.tx_type = .Withdrawal :=
  history_only_monetary txDep1 1 [txW2]
    cDep1
    { funds := { available := 10 - 4, held := 0 }
      transactions := mapInsert cDep1.transactions 2 txW2
      disputed_transactions := fun _ => false
      past_tx := 2
      locked := false }
    (Or.inl rfl) rfl rfl 2 txW2 rfl

/-- A locked ledger rejects any transaction with `AccountLocked`, unchanged. -/
theorem handle_locked (c : Client) (tx : Transaction) (hl : c.locked = true) :
    c.handle_transaction tx = some (.error .AccountLocked, c) := by
  unfold Client.handle_transaction Client.is_locked
  rw [hl]
  rfl

/-- C7: a ledger seeded with a Withdrawal starts with zero available and held
funds (the withdrawal amount is not subtracted), is unlocked, has the seed's
tx id as high watermark, and records the seed in the history map. -/
theorem withdrawal_seed_discarded (w : Transaction) (h : w.tx_type = .Withdrawal) :
    ∃ c, Client.new w.tx_id w = some c ∧
      c.funds.available = 0 ∧ c.funds.held = 0 ∧ c.locked = false ∧
      c.past_tx = w.tx_id ∧ c.transactions w.tx_id = some w := by
  refine ⟨{ funds := { available := 0, held := 0 }
            transactions := fun k => if k = w.tx_id then some w else none
            disputed_transactions := fun _ => false
            past_tx := w.tx_id
            locked := false }, ?_, rfl, rfl, rfl, rfl, by simp⟩
  unfold Client.new Funds.new
  rw [h]
  rfl

/-- Witness for C7 at the concrete withdrawal `txW2`. -/
theorem withdrawal_seed_discarded_witness :
    ∃ c, Client.new txW2.tx_id txW2 = some c ∧
      c.funds.available = 0 ∧ c.funds.held = 0 ∧ c.locked = false ∧
      c.past_tx = txW2.tx_id ∧ c.transactions txW2.tx_id = some txW2 :=
  withdrawal_seed_discarded txW2 rfl

/-- C8: a Chargeback on a disputed, recorded transaction subtracts its amount
from held only, locks the account and removes the id from the disputed set
(after which no chargeback or resolve can succeed any more); a Chargeback or
Resolve on an undisputed id is rejected with `NotDisputed`, unchanged. -/
theorem chargeback_semantics (c : Client) (id : Nat) (t : Transaction) (a : ℚ)
    (cb : Transaction) (hl : c.locked = false)
    (hcb : cb.tx_type = .Chargeback) (hcbid : cb.tx_id = id) :
    (c.disputed_transactions id = true → c.transactions id = some t →
      t.amount = some a →
      ∃ c', c.handle_transaction cb = some (.ok (), c') ∧
        c'.funds.held = c.funds.held - a ∧
        c'.funds.available = c.funds.available ∧
        c'.locked = true ∧
        c'.disputed_transactions id = false ∧
        ∀ x, (x.tx_type = .Chargeback ∨ x.tx_type = .Resolve) →
          ∀ c'', c'.handle_transaction x ≠ some (.ok (), c'')) ∧
    (c.disputed_transactions id = false →
      c.handle_transaction cb = some (.error .NotDisputed, c) ∧
      ∀ rv, rv.tx_type = .Resolve → rv.tx_id = id →
        c.handle_transaction rv = some (.error .NotDisputed, c)) := by
  constructor
  · intro hd hmem hamt
    refine ⟨{ funds := { available := c.funds.available, held := c.funds.held - a }
              transactions := c.transactions
              disputed_transactions := setRemove c.disputed_transactions id
              past_tx := c.past_tx
              locked := true }, ?_, rfl, rfl, rfl, ?_, ?_⟩
    · rw [handle_unlocked_dispatch c cb hl, hcb, hcbid]
      exact chargeback_transaction_success c id t a hd hmem hamt
    · show setRemove c.disputed_transactions id id = false
      simp [setRemove]
    · intro x hx c'' hcon
      rw [handle_locked _ x rfl] at hcon
      simp at hcon
  · intro hnd
    constructor
    · rw [handle_unlocked_dispatch c cb hl, hcb, hcbid]
      unfold Client.chargeback_transaction Client.tx_is_disputed
        Client.should_tx_be_disputed
      rw [hnd]
      rfl
    · intro rv hrv hrvid
      rw [handle_unlocked_dispatch c rv hl, hrv, hrvid]
      unfold Client.resolve_transaction Client.tx_is_disputed
        Client.should_tx_be_disputed
      rw [hnd]
      rfl

/-- A chargeback reference to tx id 1. -/
def txCb1 : Transaction :=
  { tx_type := .Chargeback, client_id := 1, tx_id := 1, amount := none }

/-- The `cDep1` ledger with tx 1 under dispute (the state reached from
`cDep1` by disputing tx 1). -/
def cDisp1 : Client :=
  { funds := { available := 10 - 10, held := 0 + 10 }
    transactions := cDep1.transactions
    disputed_transactions := setInsert (fun _ => false) 1
    past_tx := 1
    locked := false }

/-- Witness for C8: charging back the disputed deposit of `cDisp1`. -/
theorem chargeback_semantics_witness :
    ∃ c', cDisp1.handle_transaction txCb1 = some (.ok (), c') ∧
      c'.funds.held = cDisp1.funds.held - 10 ∧
      c'.funds.available = cDisp1.funds.available ∧
      c'.locked = true ∧
      c'.disputed_transactions 1 = false ∧
      ∀ x, (x.tx_type = .Chargeback ∨ x.tx_type = .Resolve) →
        ∀ c'', c'.handle_transaction x ≠ some (.ok (), c'') :=
  (chargeback_semantics cDisp1 1 txDep1 10 txCb1 rfl rfl rfl).1 rfl rfl rfl

/-- A withdrawal of 3 with tx id 2 for client 1 (the §8 scenario). -/
def txW3 : Transaction :=
  { tx_type := .Withdrawal, client_id := 1, tx_id := 2, amount := some 3 }

/-- Scenario state after deposit 10 then withdrawal 3. -/
def c9b : Client :=
  { funds := { available := 10 - 3, held := 0 }
    transactions := mapInsert cDep1.transactions 2 txW3
    disputed_transactions := fun _ => false
    past_tx := 2
    locked := false }

/-- Scenario state after additionally disputing tx 1. -/
def c9c : Client :=
  { funds := { available := 10 - 3 - 10, held := 0 + 10 }
    transactions := c9b.transactions
    disputed_transactions := setInsert (fun _ => false) 1
    past_tx := 2
    locked := false }

/-- Scenario state after additionally charging back tx 1. -/
def c9d : Client :=
  { funds := { available := 10 - 3 - 10, held := 0 + 10 - 10 }
    transactions := c9b.transactions
    disputed_transactions := setRemove (setInsert (fun _ => false) 1) 1
    past_tx := 2
    locked := true }

/-- C9: the §8 scenario. Deposit 10 (tx 1), withdraw 3 (tx 2), dispute tx 1,
chargeback tx 1: every step is accepted; after the dispute available = -3 and
held = 10 (no floor check); finally available = -3, held = 0, total = -3,
locked — both stepwise and through `process_transactions`. -/
theorem dispute_no_floor_scenario :
    Client.new 1 txDep1 = some cDep1 ∧
    cDep1.funds.available = 10 ∧ cDep1.funds.held = 0 ∧
    cDep1.funds.calculate_total = 10 ∧
    cDep1.handle_transaction txW3 = some (.ok (), c9b) ∧
    c9b.funds.available = 7 ∧
    c9b.handle_transaction txDisp1 = some (.ok (), c9c) ∧
    c9c.funds.available = -3 ∧ c9c.funds.held = 10 ∧
    c9c.funds.calculate_total = 7 ∧
    c9c.handle_transaction txCb1 = some (.ok (), c9d) ∧
    c9d.funds.held = 0 ∧ c9d.funds.available = -3 ∧
    c9d.funds.calculate_total = -3 ∧ c9d.locked = true ∧
    ((process_transactions [txDep1, txW3, txDisp1, txCb1]).bind fun m =>
      (m 1).map fun c =>
        (c.funds.available, c.funds.held, c.funds.calculate_total, c.locked))
      = some (c9d.funds.available, c9d.funds.held, c9d.funds.calculate_total,
              c9d.locked) := by
  refine ⟨rfl, by norm_num [cDep1], by norm_num [cDep1],
    by norm_num [cDep1, Funds.calculate_total], rfl,
    by norm_num [c9b], rfl,
    by norm_num [c9c], by norm_num [c9c],
    by norm_num [c9c, Funds.calculate_total], rfl,
    by norm_num [c9d], by norm_num [c9d],
    by norm_num [c9d, Funds.calculate_total], rfl, ?_⟩
  rfl

/-- C10: `apply` is not total. A ledger seeded with a Dispute stores the
no-amount seed in its history; a later Dispute referencing that seed's tx id
reaches `tx.amount().unwrap()` on `None` and panics (embedded `none`) instead
of returning a rejection — both at the single-client level and through
`process_transactions` on the stream [dispute 1, dispute 1]. -/
theorem unwrap_panic_reachable :
    Client.new 1 txSeedDispute = some cSeedDispute ∧
    cSeedDispute.transactions 1 = some txSeedDispute ∧
    txSeedDispute.amount = none ∧
    cSeedDispute.handle_transaction txDisp1 = none ∧
    process_transactions [txSeedDispute, txDisp1] = none :=
  ⟨rfl, rfl, rfl, rfl, rfl⟩
